import Mathlib

/-!
Shallow embedding of `src/main.rs` (teleop-record-replay): a desktop launcher
that runs at most one configured shell command at a time in a spawned terminal.
The core state lives in `MyApp` (fields `config` and `child_process`); the
operations are `MyApp.spawn_process`, `MyApp.kill_process` and the
child-process handling inside `MyApp::update` (modelled here as `MyApp.poll`).
OS effects (spawn outcome, `try_wait` outcome, `kill` outcome) are passed in
as explicit parameters, since the Rust code only branches on their values.
-/

/-- Rust `enum ProcessType` (src/main.rs lines 12-16). -/
inductive ProcessType where
  | Teleoperation
  | Record
  | Replay
  deriving DecidableEq

/-- Rust `struct Commands` (src/main.rs lines 20-26): the `[commands]` table of
config.toml. `working_directory` defaults to the empty string via serde. -/
structure Commands where
  working_directory : String
  teleoperation : String
  record : String
  replay : String
  deriving DecidableEq

/-- Rust `struct AppConfig` (src/main.rs lines 30-38): optional terminal
emulator name and optional conda installation path. -/
structure AppConfig where
  terminal : Option String
  conda_path : Option String
  deriving DecidableEq

/-- Rust `struct Config` (src/main.rs lines 42-47). -/
structure Config where
  app : AppConfig
  commands : Commands
  deriving DecidableEq

/-- An OS process handle (`std::process::Child`): the code never looks inside
it, only passes it to `try_wait` and `kill`, so a bare identifier suffices. -/
abbrev Child := Nat

/-- Rust `struct MyApp` (src/main.rs lines 50-55): the loaded configuration
(`Result<Arc<Config>, String>`) and the optionally tracked child process. -/
structure MyApp where
  config : Except String Config
  child_process : Option (Child × ProcessType)

/-- `MyApp::new` (src/main.rs lines 59-66), with the outcome of
`load_config` (file I/O, an external collaborator) taken as a parameter:
the tracked child starts out as `None`. -/
def MyApp.new (load_result : Except String Config) : MyApp :=
  { config := load_result, child_process := none }

/-- The kind-specific command lookup in `spawn_process`
(src/main.rs lines 99-103). -/
def specific_command (cmds : Commands) : ProcessType → String
  | ProcessType.Teleoperation => cmds.teleoperation
  | ProcessType.Record => cmds.record
  | ProcessType.Replay => cmds.replay

/-- `full_command` in `spawn_process` (src/main.rs lines 106-110): prepend a
`cd` clause when `working_directory` is non-empty. -/
def full_command (cmds : Commands) (pt : ProcessType) : String :=
  if cmds.working_directory = "" then
    specific_command cmds pt
  else
    "cd " ++ cmds.working_directory ++ " && " ++ specific_command cmds pt

/-- `conda_init_command` in `spawn_process` (src/main.rs lines 114-122): a
sourcing clause for conda.sh under `conda_path` when it is set and non-empty. -/
def conda_init_command (app : AppConfig) : String :=
  match app.conda_path with
  | some conda_path =>
      if conda_path = "" then "" else
        "source " ++ conda_path ++ "/etc/profile.d/conda.sh && "
  | none => ""

/-- `command_with_conda_init` in `spawn_process` (src/main.rs line 124). -/
def command_with_conda_init (cfg : Config) (pt : ProcessType) : String :=
  conda_init_command cfg.app ++ full_command cfg.commands pt

/-- `final_shell_command` in `spawn_process` (src/main.rs lines 143-146):
wrap the command in a subshell, then print a completion notice and block on
`read` so the terminal stays open. -/
def final_shell_command (cmd : String) : String :=
  "(" ++ cmd ++
    "); echo -e \"\\n\\n[INFO] Command finished. Press Enter to close this terminal.\"; read"

/-- The process-spawn request handed to the OS: program name plus argument
list, as built by `Command::new(terminal).arg("-e").arg(...)`
(src/main.rs lines 132-151). -/
structure SpawnRequest where
  program : String
  args : List String
  deriving DecidableEq

/-- The exact spawn request `spawn_process` issues for a given config and
kind (src/main.rs lines 132-151): the configured terminal (default
"konsole") with `-e` and a `bash -ic` invocation of the guarded command. -/
def spawn_request (cfg : Config) (pt : ProcessType) : SpawnRequest :=
  { program := cfg.app.terminal.getD "konsole"
    args := ["-e",
      "bash -ic \x27" ++ final_shell_command (command_with_conda_init cfg pt) ++ "\x27"] }

/-- `MyApp::spawn_process` (src/main.rs lines 90-163). The OS is the
function `os` from spawn requests to spawn outcomes. Returns the new state
together with the spawn request that was issued (`none` when the guard on
line 93 returned early and nothing was spawned). On spawn success the child
handle and kind are stored; on spawn failure the error is only logged. -/
def MyApp.spawn_process (st : MyApp) (pt : ProcessType)
    (os : SpawnRequest → Except String Child) : MyApp × Option SpawnRequest :=
  match st.child_process, st.config with
  | some _, _ => (st, none)
  | none, Except.error _ => (st, none)
  | none, Except.ok cfg =>
      let req := spawn_request cfg pt
      match os req with
      | Except.ok child_handle =>
          ({ st with child_process := some (child_handle, pt) }, some req)
      | Except.error _ => (st, some req)

/-- `MyApp::kill_process` (src/main.rs lines 166-175): take the tracked
child out, send it `kill` and ignore the outcome (a failure is only logged).
The second component records which handle was signalled (`none` when no
process was tracked and no signal was sent). -/
def MyApp.kill_process (st : MyApp) (_kill_result : Except String Unit) :
    MyApp × Option Child :=
  match st.child_process with
  | some (c, _) => ({ st with child_process := none }, some c)
  | none => (st, none)

/-- The child-process handling in `MyApp::update` (src/main.rs lines
185-207): if the config failed to load only the error is shown; otherwise
`try_wait` is consulted: `Ok(Some(_status))` clears the tracked child (the
exit status is never inspected), `Ok(None)` leaves it, and `Err(_)` clears
it after logging. The `try_wait` outcome is the parameter `tw`. -/
def MyApp.poll (st : MyApp) (tw : Except String (Option Nat)) : MyApp :=
  match st.config with
  | Except.error _ => st
  | Except.ok _ =>
      match st.child_process with
      | some _ =>
          match tw with
          | Except.ok (some _status) => { st with child_process := none }
          | Except.ok none => st
          | Except.error _ => { st with child_process := none }
      | none => st

/-- The number of `TrackedProcess` instances held by the application state. -/
def MyApp.trackedCount (st : MyApp) : Nat :=
  match st.child_process with
  | some _ => 1
  | none => 0

/-- One UI-driven event: a launch button click (with the OS spawn behaviour),
a stop click (with the OS kill outcome), or a refresh-tick poll (with the OS
`try_wait` outcome). -/
inductive Event where
  | start (pt : ProcessType) (os : SpawnRequest → Except String Child)
  | stop (kill_result : Except String Unit)
  | pollTick (tw : Except String (Option Nat))

/-- The state transition performed by one event. -/
def step (st : MyApp) : Event → MyApp
  | Event.start pt os => (st.spawn_process pt os).1
  | Event.stop r => (st.kill_process r).1
  | Event.pollTick tw => st.poll tw

/-- States reachable from application startup under any sequence of events. -/
inductive Reachable : MyApp → Prop where
  | new (r : Except String Config) : Reachable (MyApp.new r)
  | next (st : MyApp) (e : Event) : Reachable st → Reachable (step st e)

/-! ### Invariant lemmas shared by the claims -/

/-- No event ever changes the loaded configuration. -/
theorem step_preserves_config (st : MyApp) (e : Event) :
    (step st e).config = st.config := by
  obtain ⟨cfgr, cp⟩ := st
  cases e with
  | start pt os =>
      cases cp with
      | some v => rfl
      | none =>
          cases cfgr with
          | error m => rfl
          | ok cfg =>
              simp only [step, MyApp.spawn_process]
              cases os (spawn_request cfg pt) with
              | ok c => rfl
              | error m => rfl
  | stop r =>
      cases cp with
      | some v => rfl
      | none => rfl
  | pollTick tw =>
      cases cfgr with
      | error m => rfl
      | ok cfg =>
          cases cp with
          | none => rfl
          | some v =>
              cases tw with
              | error m => rfl
              | ok o => cases o with
                | none => rfl
                | some s => rfl

/-- In every reachable state, a failed configuration load entails that no
process is tracked (`spawn_process` refuses to launch when `config.is_err()`). -/
theorem config_error_no_child (st : MyApp) (h : Reachable st) :
    ∀ msg, st.config = Except.error msg → st.child_process = none := by
  induction h with
  | new r => intro msg hm; rfl
  | next st0 e h0 ih =>
      intro msg hm
      have hc0 : st0.config = Except.error msg := by
        rw [← step_preserves_config st0 e]; exact hm
      have hnone := ih msg hc0
      obtain ⟨cfgr, cp⟩ := st0
      simp only at hc0 hnone
      subst hc0 hnone
      cases e with
      | start pt os => rfl
      | stop r => rfl
      | pollTick tw => rfl

/-- A reachable state that tracks a process has a successfully loaded
configuration. -/
theorem tracked_config_ok (st : MyApp) (h : Reachable st)
    (c : Child) (pt : ProcessType) (hc : st.child_process = some (c, pt)) :
    ∃ cfg, st.config = Except.ok cfg := by
  cases hcf : st.config with
  | ok cfg => exact ⟨cfg, rfl⟩
  | error msg =>
      have hn := config_error_no_child st h msg hcf
      rw [hn] at hc
      simp at hc

/-- Polling a state with no tracked child never produces one. -/
theorem poll_no_child (st : MyApp) (tw : Except String (Option Nat))
    (h : st.child_process = none) : (st.poll tw).child_process = none := by
  cases hcf : st.config with
  | error m => simp [MyApp.poll, hcf, h]
  | ok cfg => simp [MyApp.poll, hcf, h]

/-! ### Concrete fixtures used by the witnesses -/

/-- A concrete loaded configuration (cf. the end-to-end scenario in the
spec: `record = "echo hi"`, empty working directory, terminal "test-term"). -/
def cfg0 : Config :=
  { app := { terminal := some "test-term", conda_path := none }
    commands :=
      { working_directory := ""
        teleoperation := "teleop-cmd"
        record := "echo hi"
        replay := "replay-cmd" } }

/-- A concrete configuration exercising the working-directory and conda
prefixes. -/
def cfg1 : Config :=
  { app := { terminal := none, conda_path := some "/opt/conda" }
    commands :=
      { working_directory := "/home/robot/ws"
        teleoperation := "python teleop.py"
        record := "python record.py"
        replay := "python replay.py" } }

/-- An OS behaviour whose spawn always succeeds with handle 7. -/
def osOk : SpawnRequest → Except String Child := fun _ => Except.ok 7

/-- An OS behaviour whose spawn always fails. -/
def osFail : SpawnRequest → Except String Child :=
  fun _ => Except.error "No such file or directory"

/-- The state after a successful `spawn_process(Teleoperation)` from startup
with configuration `cfg0`: it tracks child 7 with kind Teleoperation. -/
def running0 : MyApp :=
  step (MyApp.new (Except.ok cfg0)) (Event.start ProcessType.Teleoperation osOk)

/-- `running0` is reachable. -/
theorem running0_reachable : Reachable running0 :=
  Reachable.next (MyApp.new (Except.ok cfg0))
    (Event.start ProcessType.Teleoperation osOk)
    (Reachable.new (Except.ok cfg0))

/-! ### Claims -/

/-- Claim C1: at every reachable state the number of tracked processes is 0
or 1, and a `spawn_process` request issued while a process is already
tracked is a no-op: the state (handle and kind included) is unchanged and no
spawn request is issued, hence nothing is queued. -/
theorem spawn_mutual_exclusion (st st2 : MyApp)
    (h : Reachable st) (h2 : Reachable st2)
    (c : Child) (pt k : ProcessType) (os : SpawnRequest → Except String Child)
    (hc : st2.child_process = some (c, pt)) :
    st.trackedCount ≤ 1 ∧ st2.spawn_process k os = (st2, none) := by
  constructor
  · unfold MyApp.trackedCount
    cases st.child_process with
    | some v => exact Nat.le_refl 1
    | none => exact Nat.zero_le 1
  · unfold MyApp.spawn_process
    rw [hc]

/-- Witness for C1: after a successful Teleoperation launch, a Record
request leaves the state (kind Teleoperation, child 7) unchanged and issues
no spawn request. -/
theorem spawn_mutual_exclusion_witness :
    running0.trackedCount ≤ 1 ∧
      running0.spawn_process ProcessType.Record osOk = (running0, none) :=
  spawn_mutual_exclusion running0 running0 running0_reachable running0_reachable
    7 ProcessType.Teleoperation ProcessType.Record osOk rfl

/-- Claim C2: polling a reachable state that tracks a process clears the
tracked process when `try_wait` reports an exit, does so independently of
the reported exit status (the status is never inspected), and leaves the
state completely unchanged (same handle and kind) when `try_wait` reports
the process still alive. -/
theorem poll_running_transition (st : MyApp) (h : Reachable st)
    (c : Child) (pt : ProcessType) (hc : st.child_process = some (c, pt))
    (s1 s2 : Nat) :
    (st.poll (Except.ok (some s1))).child_process = none ∧
    st.poll (Except.ok (some s1)) = st.poll (Except.ok (some s2)) ∧
    st.poll (Except.ok none) = st := by
  obtain ⟨cfg, hcfg⟩ := tracked_config_ok st h c pt hc
  refine ⟨?_, ?_, ?_⟩ <;> simp [MyApp.poll, hcfg, hc]

/-- Witness for C2: at the concrete Running state `running0`, a poll that
observes exit status 0 clears the child, exit statuses 0 and 1 act alike,
and a still-alive poll is the identity. -/
theorem poll_running_transition_witness :
    (running0.poll (Except.ok (some 0))).child_process = none ∧
    running0.poll (Except.ok (some 0)) = running0.poll (Except.ok (some 1)) ∧
    running0.poll (Except.ok none) = running0 :=
  poll_running_transition running0 running0_reachable
    7 ProcessType.Teleoperation rfl 0 1

/-- Claim C3: `kill_process` on a state tracking child `c` signals exactly
`c`, clears the tracked process regardless of the kill outcome `r`, and an
immediately following poll (any `try_wait` outcome) still has no tracked
process. -/
theorem kill_process_unconditional (st : MyApp) (c : Child) (pt : ProcessType)
    (hc : st.child_process = some (c, pt)) (r : Except String Unit)
    (tw : Except String (Option Nat)) :
    (st.kill_process r).2 = some c ∧
    (st.kill_process r).1 = { st with child_process := none } ∧
    ((st.kill_process r).1.poll tw).child_process = none := by
  have h1 : st.kill_process r = ({ st with child_process := none }, some c) := by
    unfold MyApp.kill_process
    rw [hc]
  refine ⟨by rw [h1], by rw [h1], ?_⟩
  rw [h1]
  exact poll_no_child { st with child_process := none } tw rfl

/-- Witness for C3: at `running0`, a stop whose OS kill is simulated to fail
still signals child 7, clears the state, and the immediate poll (process
reported still alive, as a dead handle would not be) shows no tracked
process. -/
theorem kill_process_unconditional_witness :
    (running0.kill_process (Except.error "ESRCH")).2 = some 7 ∧
    (running0.kill_process (Except.error "ESRCH")).1 =
      { running0 with child_process := none } ∧
    ((running0.kill_process (Except.error "ESRCH")).1.poll
        (Except.ok none)).child_process = none :=
  kill_process_unconditional running0 7 ProcessType.Teleoperation rfl
    (Except.error "ESRCH") (Except.ok none)

/-- Claim C4: with a non-empty working directory `d` the resolved command is
"cd d && " followed by the kind-specific command, and with a non-empty conda
path `p` additionally set, the whole string is further prefixed by the
sourcing clause for `p` joined with " && ". -/
theorem resolve_composition (k : ProcessType) (cfg : Config) (d p : String)
    (hd : cfg.commands.working_directory = d) (hdne : d ≠ "")
    (hp : cfg.app.conda_path = some p) (hpne : p ≠ "") :
    full_command cfg.commands k = "cd " ++ d ++ " && " ++ specific_command cfg.commands k ∧
    conda_init_command cfg.app = "source " ++ p ++ "/etc/profile.d/conda.sh && " ∧
    command_with_conda_init cfg k =
      "source " ++ p ++ "/etc/profile.d/conda.sh && " ++
        ("cd " ++ d ++ " && " ++ specific_command cfg.commands k) := by
  have h1 : full_command cfg.commands k =
      "cd " ++ d ++ " && " ++ specific_command cfg.commands k := by
    unfold full_command
    rw [hd]
    simp [hdne]
  have h2 : conda_init_command cfg.app =
      "source " ++ p ++ "/etc/profile.d/conda.sh && " := by
    unfold conda_init_command
    rw [hp]
    simp [hpne]
  refine ⟨h1, h2, ?_⟩
  unfold command_with_conda_init
  rw [h1, h2]

/-- Witness for C4: with working directory "/home/robot/ws" and conda path
"/opt/conda" (configuration `cfg1`), the Record command resolves to the
fully prefixed string. -/
theorem resolve_composition_witness :
    full_command cfg1.commands ProcessType.Record =
      "cd " ++ "/home/robot/ws" ++ " && " ++ specific_command cfg1.commands ProcessType.Record ∧
    conda_init_command cfg1.app = "source " ++ "/opt/conda" ++ "/etc/profile.d/conda.sh && " ∧
    command_with_conda_init cfg1 ProcessType.Record =
      "source " ++ "/opt/conda" ++ "/etc/profile.d/conda.sh && " ++
        ("cd " ++ "/home/robot/ws" ++ " && " ++
          specific_command cfg1.commands ProcessType.Record) :=
  resolve_composition ProcessType.Record cfg1 "/home/robot/ws" "/opt/conda"
    rfl (by decide) rfl (by decide)

/-- Claim C5: with an empty working directory and an absent or empty conda
path, the resolved command is exactly the kind-specific configured command,
with no prefix added (the resolver is total, so no failure is possible). -/
theorem resolve_empty_identity (k : ProcessType) (cfg : Config)
    (hd : cfg.commands.working_directory = "")
    (hb : cfg.app.conda_path = none ∨ cfg.app.conda_path = some "") :
    command_with_conda_init cfg k = specific_command cfg.commands k := by
  have h1 : full_command cfg.commands k = specific_command cfg.commands k := by
    unfold full_command
    rw [hd]
    simp
  have h2 : conda_init_command cfg.app = "" := by
    unfold conda_init_command
    cases hb with
    | inl h => rw [h]
    | inr h => rw [h]; simp
  unfold command_with_conda_init
  rw [h1, h2]
  simp

/-- Witness for C5: under `cfg0` (empty working directory, no conda path)
the Record command resolves to exactly "echo hi". -/
theorem resolve_empty_identity_witness :
    command_with_conda_init cfg0 ProcessType.Record =
      specific_command cfg0.commands ProcessType.Record :=
  resolve_empty_identity ProcessType.Record cfg0 rfl (Or.inl rfl)

/-- Claim C6: if `try_wait` itself errors at a reachable state tracking a
process, the poll clears the tracked process and changes nothing else
(the configuration is untouched), exactly as a normal exit would. -/
theorem poll_liveness_error (st : MyApp) (h : Reachable st)
    (c : Child) (pt : ProcessType) (hc : st.child_process = some (c, pt))
    (msg : String) (s : Nat) :
    st.poll (Except.error msg) = { st with child_process := none } ∧
    st.poll (Except.error msg) = st.poll (Except.ok (some s)) := by
  obtain ⟨cfg, hcfg⟩ := tracked_config_ok st h c pt hc
  constructor <;> simp [MyApp.poll, hcfg, hc]

/-- Witness for C6: at `running0`, a failing liveness check clears the
child and coincides with a poll observing exit status 0. -/
theorem poll_liveness_error_witness :
    running0.poll (Except.error "No child processes") =
      { running0 with child_process := none } ∧
    running0.poll (Except.error "No child processes") =
      running0.poll (Except.ok (some 0)) :=
  poll_liveness_error running0 running0_reachable 7 ProcessType.Teleoperation
    rfl "No child processes" 0

/-- Claim C7: when the configuration failed to load, `spawn_process` is a
no-op for every kind and every OS behaviour — the state is returned
unchanged and no spawn request is issued — and the startup state for a
failed load tracks no process (Idle). -/
theorem spawn_config_error_noop (st : MyApp) (k : ProcessType)
    (os : SpawnRequest → Except String Child) (msg : String)
    (hcfg : st.config = Except.error msg) :
    st.spawn_process k os = (st, none) ∧
    (MyApp.new (Except.error msg)).child_process = none := by
  refine ⟨?_, rfl⟩
  unfold MyApp.spawn_process
  cases hc : st.child_process with
  | some v => rfl
  | none => rw [hcfg]

/-- Witness for C7: with a missing config file (load error), a
Teleoperation request at the startup state is a no-op with no spawn
request issued. -/
theorem spawn_config_error_noop_witness :
    (MyApp.new (Except.error "Failed to read config file")).spawn_process
        ProcessType.Teleoperation osOk =
      (MyApp.new (Except.error "Failed to read config file"), none) ∧
    (MyApp.new (Except.error "Failed to read config file")).child_process = none :=
  spawn_config_error_noop (MyApp.new (Except.error "Failed to read config file"))
    ProcessType.Teleoperation osOk "Failed to read config file" rfl

/-- Claim C8: from an Idle state with a loaded configuration, a spawn
failure leaves the state unchanged (still Idle, nothing tracked) while the
request was issued and the failure only reported; a spawn success stores
exactly the new handle with the requested kind, leaving the configuration
untouched. -/
theorem spawn_from_idle (st : MyApp) (cfg : Config) (k : ProcessType)
    (osf oss : SpawnRequest → Except String Child)
    (hc : st.child_process = none) (hcfg : st.config = Except.ok cfg)
    (c : Child) (msg : String)
    (hf : osf (spawn_request cfg k) = Except.error msg)
    (hs : oss (spawn_request cfg k) = Except.ok c) :
    st.spawn_process k osf = (st, some (spawn_request cfg k)) ∧
    st.spawn_process k oss =
      ({ st with child_process := some (c, k) }, some (spawn_request cfg k)) := by
  constructor
  · unfold MyApp.spawn_process
    rw [hc, hcfg]
    simp only [hf]
  · unfold MyApp.spawn_process
    rw [hc, hcfg]
    simp only [hs]

/-- Witness for C8: from startup with `cfg0`, a failing spawn leaves the
state unchanged and a succeeding spawn stores child 7 with kind Record. -/
theorem spawn_from_idle_witness :
    (MyApp.new (Except.ok cfg0)).spawn_process ProcessType.Record osFail =
      (MyApp.new (Except.ok cfg0), some (spawn_request cfg0 ProcessType.Record)) ∧
    (MyApp.new (Except.ok cfg0)).spawn_process ProcessType.Record osOk =
      ({ MyApp.new (Except.ok cfg0) with
          child_process := some (7, ProcessType.Record) },
        some (spawn_request cfg0 ProcessType.Record)) :=
  spawn_from_idle (MyApp.new (Except.ok cfg0)) cfg0 ProcessType.Record
    osFail osOk rfl rfl 7 "No such file or directory" rfl rfl

/-- Claim C9: the spawn request runs the configured terminal program (or the
fallback "konsole" when the setting is absent) with arguments asking for an
interactive bash execution of the resolved command wrapped in the guard
clause: a subshell around the command, then a completion notice, then a
blocking `read` before the terminal exits. -/
theorem launcher_guard_clause (cfgT cfgN : Config) (k : ProcessType) (t : String)
    (ht : cfgT.app.terminal = some t) (hn : cfgN.app.terminal = none) :
    (spawn_request cfgT k).program = t ∧
    (spawn_request cfgN k).program = "konsole" ∧
    (spawn_request cfgT k).args =
      ["-e",
        "bash -ic \x27(" ++ command_with_conda_init cfgT k ++
          "); echo -e \"\\n\\n[INFO] Command finished. Press Enter to close this terminal.\"; read\x27"] := by
  refine ⟨?_, ?_, ?_⟩
  · simp [spawn_request, ht]
  · simp [spawn_request, hn]
  · have h1 : ("bash -ic \x27(" : String) = "bash -ic \x27" ++ "(" := rfl
    have h2 :
        ("); echo -e \"\\n\\n[INFO] Command finished. Press Enter to close this terminal.\"; read\x27" : String) =
          "); echo -e \"\\n\\n[INFO] Command finished. Press Enter to close this terminal.\"; read" ++ "\x27" := rfl
    simp [spawn_request, final_shell_command, h1, h2, String.append_assoc]
    rw [← String.append_assoc, ← h1]

/-- Witness for C9: `cfg0` configures terminal "test-term" and `cfg1` leaves
it absent; the request for Record under `cfg0` carries the guarded bash
invocation. -/
theorem launcher_guard_clause_witness :
    (spawn_request cfg0 ProcessType.Record).program = "test-term" ∧
    (spawn_request cfg1 ProcessType.Record).program = "konsole" ∧
    (spawn_request cfg0 ProcessType.Record).args =
      ["-e",
        "bash -ic \x27(" ++ command_with_conda_init cfg0 ProcessType.Record ++
          "); echo -e \"\\n\\n[INFO] Command finished. Press Enter to close this terminal.\"; read\x27"] :=
  launcher_guard_clause cfg0 cfg1 ProcessType.Record "test-term" rfl rfl

/-- Claim C10: `kill_process` at an Idle state (no tracked process) is a
no-op — the state (configuration included) is returned unchanged and no
handle is signalled — whatever the ambient kill outcome. -/
theorem kill_process_idle_noop (st : MyApp) (r : Except String Unit)
    (hc : st.child_process = none) :
    st.kill_process r = (st, none) := by
  unfold MyApp.kill_process
  rw [hc]

/-- Witness for C10: at startup with `cfg0` (Idle), a stop request returns
the state unchanged and signals no handle. -/
theorem kill_process_idle_noop_witness :
    (MyApp.new (Except.ok cfg0)).kill_process (Except.ok ()) =
      (MyApp.new (Except.ok cfg0), none) :=
  kill_process_idle_noop (MyApp.new (Except.ok cfg0)) (Except.ok ()) rfl
